import Mathlib

/-!
Shallow embedding of `controller.py` (FCND-Controls): a cascaded multirotor
controller.  Pure numeric code is translated into Lean functions over an
arbitrary linear ordered field `α`; the transcendental functions the source
imports (`sin`, `cos`, `np.sqrt`, `math.pi`) are passed in as parameters, so
that claims can be settled either generically or at `α := ℝ` with the real
`Real.sin`, `Real.cos`, `Real.sqrt`, `Real.pi`.  Every method of the Python
class `NonlinearController` is embedded as a function taking the controller
state and returning the (possibly updated) state together with its result,
mirroring Python's `self` threading: a method that never assigns to `self`
returns the state it received.
-/

namespace FCND

/-- A 3-element vector, standing for the 3-element numpy arrays of the source. -/
structure Vec3 (α : Type) where
  x : α
  y : α
  z : α
deriving DecidableEq

/-- Componentwise subtraction of 3-vectors (numpy elementwise `-`). -/
def Vec3.sub {α : Type} [LinearOrderedField α] (a b : Vec3 α) : Vec3 α :=
  ⟨a.x - b.x, a.y - b.y, a.z - b.z⟩

/-- Componentwise addition of 3-vectors (numpy elementwise `+`). -/
def Vec3.add {α : Type} [LinearOrderedField α] (a b : Vec3 α) : Vec3 α :=
  ⟨a.x + b.x, a.y + b.y, a.z + b.z⟩

/-- Multiplication of a 3-vector by a scalar (numpy broadcasting `*`). -/
def Vec3.smul {α : Type} [LinearOrderedField α] (a : Vec3 α) (c : α) : Vec3 α :=
  ⟨a.x * c, a.y * c, a.z * c⟩

/-- Division of a 3-vector by a scalar (numpy broadcasting `/`).  NumPy does
not raise on a zero divisor (it yields non-finite floats); the embedding
totalises with the field convention `t / 0 = 0`. -/
def Vec3.sdiv {α : Type} [LinearOrderedField α] (a : Vec3 α) (c : α) : Vec3 α :=
  ⟨a.x / c, a.y / c, a.z / c⟩

/-- A 3×3 matrix given by its nine entries, `mIJ` being row `I`, column `J`. -/
structure Mat3 (α : Type) where
  m00 : α
  m01 : α
  m02 : α
  m10 : α
  m11 : α
  m12 : α
  m20 : α
  m21 : α
  m22 : α
deriving DecidableEq

/-- Matrix product of 3×3 matrices (numpy `@`). -/
def Mat3.mul {α : Type} [LinearOrderedField α] (A B : Mat3 α) : Mat3 α :=
  ⟨A.m00 * B.m00 + A.m01 * B.m10 + A.m02 * B.m20,
   A.m00 * B.m01 + A.m01 * B.m11 + A.m02 * B.m21,
   A.m00 * B.m02 + A.m01 * B.m12 + A.m02 * B.m22,
   A.m10 * B.m00 + A.m11 * B.m10 + A.m12 * B.m20,
   A.m10 * B.m01 + A.m11 * B.m11 + A.m12 * B.m21,
   A.m10 * B.m02 + A.m11 * B.m12 + A.m12 * B.m22,
   A.m20 * B.m00 + A.m21 * B.m10 + A.m22 * B.m20,
   A.m20 * B.m01 + A.m21 * B.m11 + A.m22 * B.m21,
   A.m20 * B.m02 + A.m21 * B.m12 + A.m22 * B.m22⟩

/-- Module constant `DRONE_MASS_KG = 0.5`. -/
def DRONE_MASS_KG {α : Type} [LinearOrderedField α] : α := 1 / 2

/-- Module constant `GRAVITY = -9.81`. -/
def GRAVITY {α : Type} [LinearOrderedField α] : α := -(981 / 100)

/-- Module constant `MOI = np.array([0.005, 0.005, 0.01])`. -/
def MOI {α : Type} [LinearOrderedField α] : Vec3 α := ⟨5 / 1000, 5 / 1000, 1 / 100⟩

/-- Module constant `MAX_THRUST = 10.0`. -/
def MAX_THRUST {α : Type} [LinearOrderedField α] : α := 10

/-- Module constant `MAX_TORQUE = 1.0`. -/
def MAX_TORQUE {α : Type} [LinearOrderedField α] : α := 1

/-- `np.clip(x, lo, hi)`: `x` pushed up to `lo`, then down to `hi`. -/
def np_clip {α : Type} [LinearOrderedField α] (x lo hi : α) : α := min (max x lo) hi

/-- Python list indexing `l[i]` with `i` a possibly negative integer:
`l[-k]` reads `l[len(l)-k]`.  Out-of-range access (which would raise
`IndexError` in Python) is totalised with the default `d`; theorems about
the sampler carry the length hypotheses that keep every access in range. -/
def pyGet {β : Type} (l : List β) (i : ℤ) (d : β) : β :=
  if i < 0 then l.getD (l.length - (-i).toNat) d else l.getD i.toNat d

/-- `np.argmin`: the index of the first occurrence of the minimum of a list
(0 on the empty list, where numpy would raise). -/
def argminList {β : Type} [LinearOrder β] : List β → ℕ
  | [] => 0
  | [_] => 0
  | a :: b :: l =>
    let j := argminList (b :: l)
    if a ≤ (b :: l).getD j a then 0 else j + 1

/-- The state of the Python class `NonlinearController`: the gains fixed by
`__init__` and the integral accumulator `z_error_sum`. -/
structure NonlinearController (α : Type) where
  z_k_p : α
  z_k_d : α
  z_k_i : α
  x_k_p : α
  x_k_d : α
  y_k_p : α
  y_k_d : α
  k_p_roll : α
  k_p_pitch : α
  k_p_yaw : α
  k_p_p : α
  k_p_q : α
  k_p_r : α
  z_error_sum : α
deriving DecidableEq

/-- `NonlinearController.__init__`: the controller as constructed, with
`np.sqrt` passed in as the parameter `sqrt` (`0.5 = 1/2`, `0.02 = 2/100`,
`2.5 = 25/10`, `0.1 = 1/10`, `0.04 = 4/100` as exact fractions). -/
def initController {α : Type} [LinearOrderedField α] (sqrt : α → α) : NonlinearController α :=
  let delta : α := 1
  { z_k_p := 64
    z_k_d := sqrt 64 * 2 * delta
    z_k_i := 1
    x_k_p := 1 / 2 * 5
    x_k_d := sqrt (1 / 2 * 5) * 2 * delta
    y_k_p := 1 / 2 * 5
    y_k_d := sqrt (1 / 2 * 5) * 2 * delta
    k_p_roll := 2 / 100
    k_p_pitch := 2 / 100
    k_p_yaw := 25 / 10
    k_p_p := 1 / 10 * 5
    k_p_q := 1 / 10 * 5
    k_p_r := 4 / 100 * 5
    z_error_sum := 0 }

/-- Method `R(attitude)`: the rotation matrix `Rz @ (Ry @ Rx)` built from the
Euler angles `(phi, theta, psi) = (attitude.x, attitude.y, attitude.z)`. -/
def R {α : Type} [LinearOrderedField α] (sin cos : α → α) (attitude : Vec3 α) : Mat3 α :=
  let phi := attitude.x
  let theta := attitude.y
  let psi := attitude.z
  let Rx : Mat3 α := ⟨1, 0, 0, 0, cos phi, -(sin phi), 0, sin phi, cos phi⟩
  let Ry : Mat3 α := ⟨cos theta, 0, sin theta, 0, 1, 0, -(sin theta), 0, cos theta⟩
  let Rz : Mat3 α := ⟨cos psi, -(sin psi), 0, sin psi, cos psi, 0, 0, 0, 1⟩
  Mat3.mul Rz (Mat3.mul Ry Rx)

/-- The error taxonomy the specification prescribes for the trajectory
sampler.  The source defines no such error and never raises on the sampling
path (its divisions are numpy array-by-scalar, which yield non-finite floats
rather than exceptions), so the embedding below never produces this value;
it exists so the error-handling claims can be stated. -/
inductive TrajError where
  | DegenerateSegment
deriving DecidableEq

/-- Lines 55–80 of `trajectory_control`: pick the waypoint index nearest to
`current_time` and select the interpolation segment
`(position0, position1, time0, time1, yaw_cmd)`.  Note `ind_min - 1` is a
Python integer index: at `ind_min = 0` it is `-1` and reads the LAST list
entries. -/
def selectSegment {α : Type} [LinearOrderedField α] (position_trajectory : List (Vec3 α))
    (yaw_trajectory : List α) (time_trajectory : List α) (current_time : α) :
    Vec3 α × Vec3 α × α × α × α :=
  let ind_min : ℕ := argminList (time_trajectory.map (fun ti => |ti - current_time|))
  let time_ref := pyGet time_trajectory (ind_min : ℤ) 0
  if current_time < time_ref then
    (pyGet position_trajectory ((ind_min : ℤ) - 1) ⟨0, 0, 0⟩,
     pyGet position_trajectory (ind_min : ℤ) ⟨0, 0, 0⟩,
     pyGet time_trajectory ((ind_min : ℤ) - 1) 0,
     pyGet time_trajectory (ind_min : ℤ) 0,
     pyGet yaw_trajectory ((ind_min : ℤ) - 1) 0)
  else if (ind_min : ℤ) ≥ (position_trajectory.length : ℤ) - 1 then
    (pyGet position_trajectory (ind_min : ℤ) ⟨0, 0, 0⟩,
     pyGet position_trajectory (ind_min : ℤ) ⟨0, 0, 0⟩,
     0, 1,
     pyGet yaw_trajectory (ind_min : ℤ) 0)
  else
    (pyGet position_trajectory (ind_min : ℤ) ⟨0, 0, 0⟩,
     pyGet position_trajectory ((ind_min : ℤ) + 1) ⟨0, 0, 0⟩,
     pyGet time_trajectory (ind_min : ℤ) 0,
     pyGet time_trajectory ((ind_min : ℤ) + 1) 0,
     pyGet yaw_trajectory (ind_min : ℤ) 0)

/-- Method `trajectory_control`: select the segment, then
`position_cmd = (position1 - position0) * (current_time - time0) / (time1 - time0) + position0`
and `velocity_cmd = (position1 - position0) / (time1 - time0)`.  The result
is wrapped in `Except TrajError` to state the spec's error-handling claims;
the source raises no exception here, so the value is always `Except.ok`. -/
def trajectory_control {α : Type} [LinearOrderedField α] (c : NonlinearController α)
    (position_trajectory : List (Vec3 α)) (yaw_trajectory : List α)
    (time_trajectory : List α) (current_time : α) :
    NonlinearController α × Except TrajError (Vec3 α × Vec3 α × α) :=
  let sel := selectSegment position_trajectory yaw_trajectory time_trajectory current_time
  let position0 := sel.1
  let position1 := sel.2.1
  let time0 := sel.2.2.1
  let time1 := sel.2.2.2.1
  let yaw_cmd := sel.2.2.2.2
  let position_cmd :=
    Vec3.add (Vec3.sdiv (Vec3.smul (Vec3.sub position1 position0) (current_time - time0))
      (time1 - time0)) position0
  let velocity_cmd := Vec3.sdiv (Vec3.sub position1 position0) (time1 - time0)
  (c, Except.ok (position_cmd, velocity_cmd, yaw_cmd))

/-- Method `lateral_position_control`.  The source's
`self.y_k_p * (local_position_cmd[1] - local_position)[1]` subtracts the
whole position array from the scalar `local_position_cmd[1]` and then
indexes component 1, which equals `local_position_cmd[1] - local_position[1]`. -/
def lateral_position_control {α : Type} [LinearOrderedField α] (c : NonlinearController α)
    (local_position_cmd local_velocity_cmd local_position local_velocity acceleration_ff : α × α) :
    NonlinearController α × (α × α) :=
  let x_c_dot_dot := c.x_k_p * (local_position_cmd.1 - local_position.1) +
    c.x_k_d * (local_velocity_cmd.1 - local_velocity.1) + acceleration_ff.1
  let y_c_dot_dot := c.y_k_p * (local_position_cmd.2 - local_position.2) +
    c.y_k_d * (local_velocity_cmd.2 - local_velocity.2) + acceleration_ff.2
  (c, (x_c_dot_dot, y_c_dot_dot))

/-- Lines 126–135 of `altitude_control`: the pre-clamp thrust
`(u_bar + GRAVITY) / rot_mat[2, 2]`, computed with the already-updated
integral accumulator. -/
def altitude_thrust_raw {α : Type} [LinearOrderedField α] (sin cos : α → α)
    (c : NonlinearController α)
    (altitude_cmd vertical_velocity_cmd altitude vertical_velocity : α)
    (attitude : Vec3 α) (acceleration_ff : α) : α :=
  let z_error_sum := c.z_error_sum + (altitude_cmd - altitude)
  let u_bar := c.z_k_p * (altitude_cmd - altitude) +
    c.z_k_d * (vertical_velocity_cmd - vertical_velocity) +
    c.z_k_i * z_error_sum + acceleration_ff
  let rot_mat := R sin cos attitude
  (u_bar + GRAVITY) / rot_mat.m22

/-- Method `altitude_control`: accumulate `z_error_sum`, compute the raw
thrust, clamp it to `[0.1, MAX_THRUST / DRONE_MASS_KG]`.  Returns the updated
controller together with the thrust command (the source's `print` is a pure
side effect and is dropped). -/
def altitude_control {α : Type} [LinearOrderedField α] (sin cos : α → α)
    (c : NonlinearController α)
    (altitude_cmd vertical_velocity_cmd altitude vertical_velocity : α)
    (attitude : Vec3 α) (acceleration_ff : α) : NonlinearController α × α :=
  let thrust_cmd := altitude_thrust_raw sin cos c altitude_cmd vertical_velocity_cmd
    altitude vertical_velocity attitude acceleration_ff
  let thrust_cmd := np_clip thrust_cmd (1 / 10) (MAX_THRUST / DRONE_MASS_KG)
  ({ c with z_error_sum := c.z_error_sum + (altitude_cmd - altitude) }, thrust_cmd)

/-- Method `roll_pitch_controller` as the source executes it: lines 153–164
compute `b_x_c_dot`, `b_y_c_dot`, `p_c`, `q_c`, and line 166 then returns the
constant `np.array([0.0, 0.0])`, discarding them; the
`return np.array([-p_c, -q_c])` on line 169 is unreachable. -/
def roll_pitch_controller {α : Type} [LinearOrderedField α] (sin cos : α → α)
    (c : NonlinearController α) (acceleration_cmd : α × α) (attitude : Vec3 α)
    (thrust_cmd : α) : NonlinearController α × (α × α) :=
  let rot_mat := R sin cos attitude
  let R11 := rot_mat.m00
  let R12 := rot_mat.m01
  let R21 := rot_mat.m10
  let R22 := rot_mat.m11
  let R13 := rot_mat.m02
  let R23 := rot_mat.m12
  let R33 := rot_mat.m22
  let b_x_c_dot := c.k_p_roll * (acceleration_cmd.1 / thrust_cmd - R13)
  let b_y_c_dot := c.k_p_pitch * (acceleration_cmd.2 / thrust_cmd - R23)
  let p_c := (R21 * b_x_c_dot - R11 * b_y_c_dot) / R33
  let q_c := (R22 * b_x_c_dot - R12 * b_y_c_dot) / R33
  (c, (0, 0))

/-- The value line 169 of `roll_pitch_controller` would return —
`np.array([-p_c, -q_c])` with `p_c`, `q_c` from lines 161–164 — were it not
made unreachable by the `return np.array([0.0, 0.0])` on line 166. -/
def roll_pitch_controller_unreachable {α : Type} [LinearOrderedField α] (sin cos : α → α)
    (c : NonlinearController α) (acceleration_cmd : α × α) (attitude : Vec3 α)
    (thrust_cmd : α) : α × α :=
  let rot_mat := R sin cos attitude
  let R11 := rot_mat.m00
  let R12 := rot_mat.m01
  let R21 := rot_mat.m10
  let R22 := rot_mat.m11
  let R13 := rot_mat.m02
  let R23 := rot_mat.m12
  let R33 := rot_mat.m22
  let b_x_c_dot := c.k_p_roll * (acceleration_cmd.1 / thrust_cmd - R13)
  let b_y_c_dot := c.k_p_pitch * (acceleration_cmd.2 / thrust_cmd - R23)
  let p_c := (R21 * b_x_c_dot - R11 * b_y_c_dot) / R33
  let q_c := (R22 * b_x_c_dot - R12 * b_y_c_dot) / R33
  (-p_c, -q_c)

/-- Method `body_rate_control`: elementwise gain times body-rate error. -/
def body_rate_control {α : Type} [LinearOrderedField α] (c : NonlinearController α)
    (body_rate_cmd body_rate : Vec3 α) : NonlinearController α × Vec3 α :=
  let error_pqr := Vec3.sub body_rate_cmd body_rate
  (c, ⟨c.k_p_p * error_pqr.x, c.k_p_q * error_pqr.y, c.k_p_r * error_pqr.z⟩)

/-- Truncation toward zero, as C (and Python `math.fmod`) truncate quotients. -/
def rtrunc {α : Type} [LinearOrderedField α] [FloorRing α] (x : α) : ℤ :=
  if 0 ≤ x then ⌊x⌋ else ⌈x⌉

/-- `math.fmod(x, y)`: `x - n*y` with `n = x/y` truncated toward zero, so the
result carries the sign of `x` and has magnitude below `|y|`. -/
def fmod {α : Type} [LinearOrderedField α] [FloorRing α] (x y : α) : α :=
  x - (rtrunc (x / y) : α) * y

/-- Method `yaw_control`: `k_p_yaw * fmod(yaw_cmd - yaw, pi)`, with `math.pi`
passed in as the parameter `pi`. -/
def yaw_control {α : Type} [LinearOrderedField α] [FloorRing α] (pi : α)
    (c : NonlinearController α) (yaw_cmd yaw : α) : NonlinearController α × α :=
  (c, c.k_p_yaw * fmod (yaw_cmd - yaw) pi)

/-- Modelled from the spec (§4.7): the wrap of an angle into the interval
`(-pi, pi]` — the unique representative of `x` modulo `2*pi` in that
interval.  The source has no such function; this is the behaviour the claim
attributes to `yaw_control`, stated for comparison. -/
def wrapToPi {α : Type} [LinearOrderedField α] [FloorRing α] (pi x : α) : α :=
  x - 2 * pi * (⌈(x - pi) / (2 * pi)⌉ : α)

/-! Helper lemmas about the embedding's list, vector and clamp primitives. -/

theorem getD_default_irrel {β : Type} (l : List β) (d d' : β) (n : ℕ) (h : n < l.length) :
    l.getD n d = l.getD n d' := by
  rw [List.getD_eq_getElem l d h, List.getD_eq_getElem l d' h]

theorem pyGet_natCast {β : Type} (l : List β) (n : ℕ) (d : β) :
    pyGet l (n : ℤ) d = l.getD n d := by
  simp [pyGet]

theorem pyGet_neg_one {β : Type} (l : List β) (d : β) :
    pyGet l (-1) d = l.getD (l.length - 1) d := by
  simp [pyGet]

theorem argminList_lt_length {β : Type} [LinearOrder β] :
    ∀ (l : List β), l ≠ [] → argminList l < l.length
  | [], h => absurd rfl h
  | [_], _ => Nat.zero_lt_one
  | a :: b :: l, _ => by
    have ih := argminList_lt_length (b :: l) (List.cons_ne_nil b l)
    simp only [argminList]
    split
    · simp
    · simpa using Nat.succ_lt_succ ih

theorem getD_argminList_le {β : Type} [LinearOrder β] :
    ∀ (l : List β) (d : β) (j : ℕ), j < l.length → l.getD (argminList l) d ≤ l.getD j d
  | [], _, j, h => by simp at h
  | [a], d, 0, h => le_refl _
  | [a], d, j + 1, h => by simp at h
  | a :: b :: l, d, j, h => by
    have hlt := argminList_lt_length (b :: l) (List.cons_ne_nil b l)
    simp only [argminList]
    split
    · -- a ≤ (b::l).getD (argminList (b::l)) a : the head is the min
      rename_i hle
      have hle' : a ≤ (b :: l).getD (argminList (b :: l)) d := by
        rwa [getD_default_irrel (b :: l) d a _ hlt]
      match j with
      | 0 => exact le_refl _
      | k + 1 =>
        have hk : k < (b :: l).length := by simpa using Nat.lt_of_succ_lt_succ h
        have := getD_argminList_le (b :: l) d k hk
        calc (a :: b :: l).getD 0 d = a := rfl
          _ ≤ (b :: l).getD (argminList (b :: l)) d := hle'
          _ ≤ (b :: l).getD k d := this
          _ = (a :: b :: l).getD (k + 1) d := rfl
    · rename_i hgt
      push_neg at hgt
      have hgt' : (b :: l).getD (argminList (b :: l)) d < a := by
        rwa [getD_default_irrel (b :: l) d a _ hlt]
      match j with
      | 0 => exact le_of_lt hgt'
      | k + 1 =>
        have hk : k < (b :: l).length := by simpa using Nat.lt_of_succ_lt_succ h
        exact getD_argminList_le (b :: l) d k hk

theorem pyGet_zero {β : Type} (l : List β) (d : β) : pyGet l 0 d = l.getD 0 d := by
  simp [pyGet]

theorem abs_getD_sub {α : Type} [LinearOrderedField α] (times : List α) (t : α) (j : ℕ)
    (hj : j < times.length) :
    (times.map (fun ti => |ti - t|)).getD j 0 = |times.getD j 0 - t| := by
  rw [List.getD_eq_getElem _ _ (by simpa using hj), List.getD_eq_getElem _ _ hj,
    List.getElem_map]

theorem argminAbs_before_first {α : Type} [LinearOrderedField α] (times : List α) (t : α)
    (hchain : List.Chain' (· < ·) times) (hne : times ≠ [])
    (ht : t < times.getD 0 0) :
    argminList (times.map (fun ti => |ti - t|)) = 0 := by
  have hmlen : (times.map (fun ti => |ti - t|)).length = times.length := by simp
  have hmne : times.map (fun ti => |ti - t|) ≠ [] := by simpa using hne
  have hk := argminList_lt_length _ hmne
  by_contra h0
  have hkpos : 0 < argminList (times.map (fun ti => |ti - t|)) := Nat.pos_of_ne_zero h0
  have hlen0 : 0 < times.length := List.length_pos.mpr hne
  have hklt : argminList (times.map (fun ti => |ti - t|)) < times.length := by omega
  have hpair := (List.chain'_iff_pairwise).mp hchain
  have hmono := List.pairwise_iff_getElem.mp hpair 0
    (argminList (times.map (fun ti => |ti - t|))) hlen0 hklt hkpos
  have hle := getD_argminList_le (times.map (fun ti => |ti - t|)) 0 0 (by omega)
  rw [abs_getD_sub times t _ hklt, abs_getD_sub times t 0 hlen0] at hle
  rw [List.getD_eq_getElem times 0 hlen0] at ht
  rw [List.getD_eq_getElem times 0 hklt, List.getD_eq_getElem times 0 hlen0] at hle
  rw [abs_of_pos (by linarith), abs_of_pos (by linarith)] at hle
  linarith

theorem argminAbs_from_last {α : Type} [LinearOrderedField α] (times : List α) (t : α)
    (hchain : List.Chain' (· < ·) times) (hne : times ≠ [])
    (ht : times.getD (times.length - 1) 0 ≤ t) :
    argminList (times.map (fun ti => |ti - t|)) = times.length - 1 := by
  have hmlen : (times.map (fun ti => |ti - t|)).length = times.length := by simp
  have hmne : times.map (fun ti => |ti - t|) ≠ [] := by simpa using hne
  have hk := argminList_lt_length _ hmne
  by_contra h0
  have hlen0 : 0 < times.length := List.length_pos.mpr hne
  have hklt : argminList (times.map (fun ti => |ti - t|)) < times.length - 1 := by omega
  have hklt' : argminList (times.map (fun ti => |ti - t|)) < times.length := by omega
  have hl1 : times.length - 1 < times.length := by omega
  have hpair := (List.chain'_iff_pairwise).mp hchain
  have hmono := List.pairwise_iff_getElem.mp hpair
    (argminList (times.map (fun ti => |ti - t|))) (times.length - 1) hklt' hl1 hklt
  have hle := getD_argminList_le (times.map (fun ti => |ti - t|)) 0 (times.length - 1)
    (by omega)
  rw [abs_getD_sub times t _ hklt', abs_getD_sub times t _ hl1] at hle
  rw [List.getD_eq_getElem times 0 hl1] at ht
  rw [List.getD_eq_getElem times 0 hklt', List.getD_eq_getElem times 0 hl1] at hle
  rw [abs_of_neg (by linarith), abs_of_nonpos (by linarith)] at hle
  linarith

theorem Vec3.sub_self {α : Type} [LinearOrderedField α] (v : Vec3 α) :
    Vec3.sub v v = ⟨0, 0, 0⟩ := by
  simp [Vec3.sub]

theorem Vec3.zero_smul {α : Type} [LinearOrderedField α] (c : α) :
    Vec3.smul ⟨0, 0, 0⟩ c = ⟨0, 0, 0⟩ := by
  simp [Vec3.smul]

theorem Vec3.zero_sdiv {α : Type} [LinearOrderedField α] (c : α) :
    Vec3.sdiv ⟨0, 0, 0⟩ c = ⟨0, 0, 0⟩ := by
  simp [Vec3.sdiv]

theorem Vec3.zero_add {α : Type} [LinearOrderedField α] (v : Vec3 α) :
    Vec3.add ⟨0, 0, 0⟩ v = v := by
  simp [Vec3.add]

theorem np_clip_le_hi {α : Type} [LinearOrderedField α] (x lo hi : α) :
    np_clip x lo hi ≤ hi := min_le_right _ _

theorem lo_le_np_clip {α : Type} [LinearOrderedField α] (x lo hi : α) (h : lo ≤ hi) :
    lo ≤ np_clip x lo hi := le_min (le_max_right x lo) h

theorem np_clip_of_hi_le {α : Type} [LinearOrderedField α] (x lo hi : α)
    (hlo : lo ≤ hi) (h : hi ≤ x) : np_clip x lo hi = hi := by
  unfold np_clip
  rw [max_eq_left (le_trans hlo h), min_eq_right h]

theorem np_clip_of_le_lo {α : Type} [LinearOrderedField α] (x lo hi : α)
    (hlo : lo ≤ hi) (h : x ≤ lo) : np_clip x lo hi = lo := by
  unfold np_clip
  rw [max_eq_right h, min_eq_left hlo]

theorem Vec3.sdiv_by_zero {α : Type} [LinearOrderedField α] (v : Vec3 α) :
    Vec3.sdiv v 0 = ⟨0, 0, 0⟩ := by
  simp [Vec3.sdiv]

/-- Evaluation of `fmod` at an argument equal to the modulus. -/
theorem fmod_pi_pi : fmod Real.pi Real.pi = 0 := by
  unfold fmod rtrunc
  rw [div_self Real.pi_ne_zero, if_pos (by norm_num : (0:ℝ) ≤ 1), Int.floor_one]
  push_cast
  ring

theorem ceil_neg_one_real : ⌈(-1 : ℝ)⌉ = -1 := by
  rw [show (-1 : ℝ) = ((-1 : ℤ) : ℝ) by norm_num]
  exact Int.ceil_intCast _

theorem fmod_neg_pi_pi : fmod (-Real.pi) Real.pi = 0 := by
  unfold fmod rtrunc
  rw [neg_div, div_self Real.pi_ne_zero, if_neg (by norm_num : ¬(0:ℝ) ≤ -1),
    ceil_neg_one_real]
  push_cast
  ring

/-! Claim theorems, their witnesses and counterexamples. -/

/-- C6: for every controller state and all arguments, the thrust command of
`altitude_control` lies in `[0.1, MAX_THRUST / DRONE_MASS_KG]`; a raw
commanded thrust at or above the upper bound saturates to the upper bound,
and one at or below `0.1` saturates to `0.1`. -/
theorem altitude_thrust_in_bounds {α : Type} [LinearOrderedField α] (sin cos : α → α)
    (c : NonlinearController α)
    (altitude_cmd vertical_velocity_cmd altitude vertical_velocity : α)
    (attitude : Vec3 α) (acceleration_ff : α) :
    1 / 10 ≤ (altitude_control sin cos c altitude_cmd vertical_velocity_cmd altitude
        vertical_velocity attitude acceleration_ff).2 ∧
    (altitude_control sin cos c altitude_cmd vertical_velocity_cmd altitude
        vertical_velocity attitude acceleration_ff).2 ≤ MAX_THRUST / DRONE_MASS_KG ∧
    (MAX_THRUST / DRONE_MASS_KG ≤ altitude_thrust_raw sin cos c altitude_cmd
        vertical_velocity_cmd altitude vertical_velocity attitude acceleration_ff →
      (altitude_control sin cos c altitude_cmd vertical_velocity_cmd altitude
        vertical_velocity attitude acceleration_ff).2 = MAX_THRUST / DRONE_MASS_KG) ∧
    (altitude_thrust_raw sin cos c altitude_cmd vertical_velocity_cmd altitude
        vertical_velocity attitude acceleration_ff ≤ 1 / 10 →
      (altitude_control sin cos c altitude_cmd vertical_velocity_cmd altitude
        vertical_velocity attitude acceleration_ff).2 = 1 / 10) := by
  have hlohi : (1 / 10 : α) ≤ MAX_THRUST / DRONE_MASS_KG := by
    unfold MAX_THRUST DRONE_MASS_KG
    norm_num
  have hthr : (altitude_control sin cos c altitude_cmd vertical_velocity_cmd altitude
      vertical_velocity attitude acceleration_ff).2 =
      np_clip (altitude_thrust_raw sin cos c altitude_cmd vertical_velocity_cmd altitude
        vertical_velocity attitude acceleration_ff) (1 / 10) (MAX_THRUST / DRONE_MASS_KG) := rfl
  rw [hthr]
  exact ⟨lo_le_np_clip _ _ _ hlohi, np_clip_le_hi _ _ _,
    fun h => np_clip_of_hi_le _ _ _ hlohi h, fun h => np_clip_of_le_lo _ _ _ hlohi h⟩

/-- C8: every invocation of `altitude_control` increases `z_error_sum` by
exactly `altitude_cmd - altitude` (no elapsed-time factor), so two successive
calls with the same strictly positive error leave `z_error_sum` strictly
larger after each call. -/
theorem altitude_integral_accumulates {α : Type} [LinearOrderedField α] (sin cos : α → α)
    (c : NonlinearController α)
    (altitude_cmd vertical_velocity_cmd altitude vertical_velocity : α)
    (attitude : Vec3 α) (acceleration_ff : α) :
    (altitude_control sin cos c altitude_cmd vertical_velocity_cmd altitude
        vertical_velocity attitude acceleration_ff).1.z_error_sum =
      c.z_error_sum + (altitude_cmd - altitude) ∧
    (0 < altitude_cmd - altitude →
      c.z_error_sum <
        (altitude_control sin cos c altitude_cmd vertical_velocity_cmd altitude
          vertical_velocity attitude acceleration_ff).1.z_error_sum ∧
      (altitude_control sin cos c altitude_cmd vertical_velocity_cmd altitude
          vertical_velocity attitude acceleration_ff).1.z_error_sum <
        (altitude_control sin cos
            (altitude_control sin cos c altitude_cmd vertical_velocity_cmd altitude
              vertical_velocity attitude acceleration_ff).1
            altitude_cmd vertical_velocity_cmd altitude
            vertical_velocity attitude acceleration_ff).1.z_error_sum) := by
  refine ⟨rfl, fun h => ⟨by simp only [altitude_control]; linarith, ?_⟩⟩
  simp only [altitude_control]
  linarith

/-- C2: for every acceleration command, attitude and non-zero thrust
command, `roll_pitch_controller` returns the constant zero pair — the
computed rate commands are discarded by the early `return` on line 166. -/
theorem roll_pitch_returns_zero {α : Type} [LinearOrderedField α] (sin cos : α → α)
    (c : NonlinearController α) (acceleration_cmd : α × α) (attitude : Vec3 α)
    (thrust_cmd : α) (h : thrust_cmd ≠ 0) :
    (roll_pitch_controller sin cos c acceleration_cmd attitude thrust_cmd).2 = (0, 0) := rfl

theorem roll_pitch_returns_zero_witness :
    (roll_pitch_controller (fun _ => (0 : ℚ)) (fun _ => 1) (initController id)
        (1, 0) ⟨0, 0, 0⟩ 1).2 = (0, 0) :=
  roll_pitch_returns_zero (fun _ => (0 : ℚ)) (fun _ => 1) (initController id)
    (1, 0) ⟨0, 0, 0⟩ 1 (by norm_num)

/-- C9: `trajectory_control`, `lateral_position_control`,
`roll_pitch_controller`, `body_rate_control` and `yaw_control` return the
controller state unchanged; `altitude_control` preserves every gain field and
changes only `z_error_sum`, by `altitude_cmd - altitude`. -/
theorem only_altitude_mutates_state {α : Type} [LinearOrderedField α] [FloorRing α]
    (sin cos : α → α) (pi : α) (c : NonlinearController α)
    (pos : List (Vec3 α)) (yaws times : List α) (t : α)
    (lpc lvc lp lv aff : α × α) (acceleration_cmd : α × α) (attitude : Vec3 α)
    (thrust_cmd : α) (body_rate_cmd body_rate : Vec3 α) (yaw_cmd yaw : α)
    (altitude_cmd vertical_velocity_cmd altitude vertical_velocity acceleration_ff : α) :
    (trajectory_control c pos yaws times t).1 = c ∧
    (lateral_position_control c lpc lvc lp lv aff).1 = c ∧
    (roll_pitch_controller sin cos c acceleration_cmd attitude thrust_cmd).1 = c ∧
    (body_rate_control c body_rate_cmd body_rate).1 = c ∧
    (yaw_control pi c yaw_cmd yaw).1 = c ∧
    (altitude_control sin cos c altitude_cmd vertical_velocity_cmd altitude
        vertical_velocity attitude acceleration_ff).1.z_k_p = c.z_k_p ∧
    (altitude_control sin cos c altitude_cmd vertical_velocity_cmd altitude
        vertical_velocity attitude acceleration_ff).1.z_k_d = c.z_k_d ∧
    (altitude_control sin cos c altitude_cmd vertical_velocity_cmd altitude
        vertical_velocity attitude acceleration_ff).1.z_k_i = c.z_k_i ∧
    (altitude_control sin cos c altitude_cmd vertical_velocity_cmd altitude
        vertical_velocity attitude acceleration_ff).1.x_k_p = c.x_k_p ∧
    (altitude_control sin cos c altitude_cmd vertical_velocity_cmd altitude
        vertical_velocity attitude acceleration_ff).1.x_k_d = c.x_k_d ∧
    (altitude_control sin cos c altitude_cmd vertical_velocity_cmd altitude
        vertical_velocity attitude acceleration_ff).1.y_k_p = c.y_k_p ∧
    (altitude_control sin cos c altitude_cmd vertical_velocity_cmd altitude
        vertical_velocity attitude acceleration_ff).1.y_k_d = c.y_k_d ∧
    (altitude_control sin cos c altitude_cmd vertical_velocity_cmd altitude
        vertical_velocity attitude acceleration_ff).1.k_p_roll = c.k_p_roll ∧
    (altitude_control sin cos c altitude_cmd vertical_velocity_cmd altitude
        vertical_velocity attitude acceleration_ff).1.k_p_pitch = c.k_p_pitch ∧
    (altitude_control sin cos c altitude_cmd vertical_velocity_cmd altitude
        vertical_velocity attitude acceleration_ff).1.k_p_yaw = c.k_p_yaw ∧
    (altitude_control sin cos c altitude_cmd vertical_velocity_cmd altitude
        vertical_velocity attitude acceleration_ff).1.k_p_p = c.k_p_p ∧
    (altitude_control sin cos c altitude_cmd vertical_velocity_cmd altitude
        vertical_velocity attitude acceleration_ff).1.k_p_q = c.k_p_q ∧
    (altitude_control sin cos c altitude_cmd vertical_velocity_cmd altitude
        vertical_velocity attitude acceleration_ff).1.k_p_r = c.k_p_r ∧
    (altitude_control sin cos c altitude_cmd vertical_velocity_cmd altitude
        vertical_velocity attitude acceleration_ff).1.z_error_sum =
      c.z_error_sum + (altitude_cmd - altitude) :=
  ⟨rfl, rfl, rfl, rfl, rfl, rfl, rfl, rfl, rfl, rfl, rfl, rfl, rfl, rfl, rfl, rfl, rfl,
    rfl, rfl⟩

/-- C5 (amended): when the selected interpolation segment has
`time1 == time0`, the sampler does not fail with a `DegenerateSegment` error:
it performs the division by the zero interval unguarded and returns a result
(in this exact-arithmetic model, where division by zero is total and yields
zero, `position_cmd = position0` and `velocity_cmd = 0`; in NumPy the same
unguarded division yields non-finite floats, again without raising). -/
theorem trajectory_degenerate_returns {α : Type} [LinearOrderedField α]
    (c : NonlinearController α) (pos : List (Vec3 α)) (yaws times : List α) (t : α)
    (hdeg : (selectSegment pos yaws times t).2.2.2.1 = (selectSegment pos yaws times t).2.2.1) :
    (trajectory_control c pos yaws times t).2 =
      Except.ok ((selectSegment pos yaws times t).1, (⟨0, 0, 0⟩ : Vec3 α),
        (selectSegment pos yaws times t).2.2.2.2) := by
  simp only [trajectory_control]
  rw [hdeg, sub_self, Vec3.sdiv_by_zero, Vec3.sdiv_by_zero, Vec3.zero_add]

theorem trajectory_degenerate_returns_witness :
    (trajectory_control (initController (id : ℚ → ℚ)) [⟨0, 0, 0⟩, ⟨0, 0, 0⟩] [0, 0]
        [1, 1] 1).2 =
      Except.ok ((selectSegment ([⟨0, 0, 0⟩, ⟨0, 0, 0⟩] : List (Vec3 ℚ)) [0, 0] [1, 1] 1).1,
        ⟨0, 0, 0⟩,
        (selectSegment ([⟨0, 0, 0⟩, ⟨0, 0, 0⟩] : List (Vec3 ℚ)) [0, 0] [1, 1] 1).2.2.2.2) :=
  trajectory_degenerate_returns (initController (id : ℚ → ℚ)) [⟨0, 0, 0⟩, ⟨0, 0, 0⟩]
    [0, 0] [1, 1] 1 (by norm_num [selectSegment, argminList, pyGet])

/-- C5 counterexample: a concrete input (two waypoints with equal times,
queried at that time) whose selected segment is degenerate
(`time1 = time0`), on which the sampler returns a value rather than failing
with `DegenerateSegment`. -/
theorem trajectory_degenerate_no_error :
    (selectSegment ([⟨0, 0, 0⟩, ⟨0, 0, 0⟩] : List (Vec3 ℚ)) [0, 0] [1, 1] 1).2.2.2.1 =
      (selectSegment ([⟨0, 0, 0⟩, ⟨0, 0, 0⟩] : List (Vec3 ℚ)) [0, 0] [1, 1] 1).2.2.1 ∧
    (trajectory_control (initController (id : ℚ → ℚ)) [⟨0, 0, 0⟩, ⟨0, 0, 0⟩] [0, 0]
        [1, 1] 1).2 ≠ Except.error TrajError.DegenerateSegment := by
  refine ⟨by norm_num [selectSegment, argminList, pyGet], ?_⟩
  norm_num [trajectory_control, selectSegment, argminList, pyGet]
  intro h
  exact Except.noConfusion h

/-- C3 (amended): for a freshly constructed controller, hovering at
`altitude_cmd = altitude = -5` with zero velocities, zero attitude and zero
feedforward, `altitude_control` returns `(0 + GRAVITY)/1.0 = -9.81` clamped
into `[0.1, MAX_THRUST / DRONE_MASS_KG]`, i.e. the lower clamp bound `0.1` —
not the magnitude of `GRAVITY` (GRAVITY is negative). -/
theorem hover_thrust_is_lower_clamp :
    (altitude_control Real.sin Real.cos (initController Real.sqrt) (-5) 0 (-5) 0
      ⟨0, 0, 0⟩ 0).2 = 1 / 10 := by
  simp only [altitude_control, altitude_thrust_raw, R, Mat3.mul, initController, np_clip,
    GRAVITY, MAX_THRUST, DRONE_MASS_KG, Real.sin_zero, Real.cos_zero]
  norm_num [min_def, max_def]

/-- C3 counterexample: at the hover input the thrust command differs from
the magnitude of `GRAVITY` (it is `0.1`, not `9.81`). -/
theorem hover_thrust_not_gravity_magnitude :
    (altitude_control Real.sin Real.cos (initController Real.sqrt) (-5) 0 (-5) 0
      ⟨0, 0, 0⟩ 0).2 ≠ |(GRAVITY : ℝ)| := by
  have h : (altitude_control Real.sin Real.cos (initController Real.sqrt) (-5) 0 (-5) 0
      ⟨0, 0, 0⟩ 0).2 = 1 / 10 := by
    simp only [altitude_control, altitude_thrust_raw, R, Mat3.mul, initController, np_clip,
      GRAVITY, MAX_THRUST, DRONE_MASS_KG, Real.sin_zero, Real.cos_zero]
    norm_num [min_def, max_def]
  rw [h, GRAVITY, abs_neg, abs_of_pos (by norm_num : (0:ℝ) < 981 / 100)]
  norm_num

/-- C1: at the failing input `acceleration_cmd = (1, 0)`,
`attitude = (0, 0, 0)`, `thrust_cmd = 1` on a fresh controller, the code
returns `(0, 0)` while the claimed formula — the unreachable
`return np.array([-p_c, -q_c])` of line 169 — yields `(0, -0.02)`; the two
differ, so the early constant-zero return discards the computed commands. -/
theorem roll_pitch_divergence_at_identity :
    (roll_pitch_controller Real.sin Real.cos (initController Real.sqrt) (1, 0)
        ⟨0, 0, 0⟩ 1).2 = (0, 0) ∧
    roll_pitch_controller_unreachable Real.sin Real.cos (initController Real.sqrt) (1, 0)
        ⟨0, 0, 0⟩ 1 = (0, -(1 / 50)) ∧
    ((0 : ℝ), (0 : ℝ)) ≠ ((0 : ℝ), -(1 / 50)) := by
  refine ⟨rfl, ?_, by norm_num [Prod.ext_iff]⟩
  simp only [roll_pitch_controller_unreachable, R, Mat3.mul, initController,
    Real.sin_zero, Real.cos_zero]
  norm_num [Prod.ext_iff]

/-- C4 (amended): `yaw_control` returns
`k_p_yaw * fmod(yaw_cmd - yaw, pi)` — a remainder-by-`pi` (half-period) wrap,
not a wrap into `(-pi, pi]`; errors of `+pi` and `-pi` are both mapped
through the same rule, consistently, to a zero yaw rate. -/
theorem yaw_control_is_fmod_pi (c : NonlinearController ℝ) (yaw_cmd yaw : ℝ) :
    (yaw_control Real.pi c yaw_cmd yaw).2 = c.k_p_yaw * fmod (yaw_cmd - yaw) Real.pi ∧
    (yaw_control Real.pi c (yaw + Real.pi) yaw).2 = 0 ∧
    (yaw_control Real.pi c (yaw - Real.pi) yaw).2 = 0 := by
  refine ⟨rfl, ?_, ?_⟩
  · show c.k_p_yaw * fmod (yaw + Real.pi - yaw) Real.pi = 0
    rw [show yaw + Real.pi - yaw = Real.pi by ring, fmod_pi_pi, mul_zero]
  · show c.k_p_yaw * fmod (yaw - Real.pi - yaw) Real.pi = 0
    rw [show yaw - Real.pi - yaw = -Real.pi by ring, fmod_neg_pi_pi, mul_zero]

theorem yaw_control_is_fmod_pi_witness :
    (yaw_control Real.pi (initController Real.sqrt) 0 0).2 =
      (initController Real.sqrt).k_p_yaw * fmod (0 - 0) Real.pi ∧
    (yaw_control Real.pi (initController Real.sqrt) (0 + Real.pi) 0).2 = 0 ∧
    (yaw_control Real.pi (initController Real.sqrt) (0 - Real.pi) 0).2 = 0 :=
  yaw_control_is_fmod_pi (initController Real.sqrt) 0 0

/-- C4 counterexample: at `yaw_cmd = 0`, `yaw = pi` the code returns
`k_p_yaw * fmod(-pi, pi) = 0`, while the claimed wrap into `(-pi, pi]` gives
`k_p_yaw * pi`, which is positive; the claim fails at this input. -/
theorem yaw_control_not_wrapToPi :
    (yaw_control Real.pi (initController Real.sqrt) 0 Real.pi).2 ≠
      (initController Real.sqrt).k_p_yaw * wrapToPi Real.pi (0 - Real.pi) := by
  have hL : (yaw_control Real.pi (initController Real.sqrt) 0 Real.pi).2 = 0 := by
    show (initController Real.sqrt).k_p_yaw * fmod (0 - Real.pi) Real.pi = 0
    rw [show (0 : ℝ) - Real.pi = -Real.pi by ring, fmod_neg_pi_pi, mul_zero]
  have hW : wrapToPi Real.pi (0 - Real.pi) = Real.pi := by
    unfold wrapToPi
    rw [show (0 : ℝ) - Real.pi = -Real.pi by ring,
      show -Real.pi - Real.pi = -(2 * Real.pi) by ring, neg_div,
      div_self (by positivity : (2 : ℝ) * Real.pi ≠ 0), ceil_neg_one_real]
    push_cast
    ring
  rw [hL, hW, show (initController Real.sqrt).k_p_yaw = 25 / 10 from rfl]
  have hpi := Real.pi_pos
  intro h
  nlinarith

/-- C7: for parallel waypoint lists of equal length at least 1 with strictly
increasing times, querying `trajectory_control` at the last waypoint time or
any later time returns `position_cmd` equal to the last waypoint position and
`velocity_cmd` equal to the zero vector (and `yaw_cmd` the last yaw). -/
theorem trajectory_endpoint_pinning {α : Type} [LinearOrderedField α]
    (c : NonlinearController α) (pos : List (Vec3 α)) (yaws times : List α) (t : α)
    (hlp : pos.length = times.length) (hly : yaws.length = times.length)
    (hne : times ≠ []) (hchain : List.Chain' (· < ·) times)
    (ht : times.getD (times.length - 1) 0 ≤ t) :
    (trajectory_control c pos yaws times t).2 =
      Except.ok (pos.getD (pos.length - 1) ⟨0, 0, 0⟩, (⟨0, 0, 0⟩ : Vec3 α),
        yaws.getD (yaws.length - 1) 0) := by
  have hlen0 : 0 < times.length := List.length_pos.mpr hne
  have hind := argminAbs_from_last times t hchain hne ht
  have hsel : selectSegment pos yaws times t =
      (pos.getD (pos.length - 1) ⟨0, 0, 0⟩, pos.getD (pos.length - 1) ⟨0, 0, 0⟩, 0, 1,
        yaws.getD (yaws.length - 1) 0) := by
    have hge : ((times.length - 1 : ℕ) : ℤ) ≥ (pos.length : ℤ) - 1 := by omega
    simp only [selectSegment, hind, pyGet_natCast]
    rw [if_neg (not_lt.mpr ht), if_pos hge, hlp, hly]
  unfold trajectory_control
  rw [hsel]
  simp only [Vec3.sub_self, Vec3.zero_smul, Vec3.zero_sdiv, Vec3.zero_add]

/-- C10: with at least two waypoints and a query time strictly below the
first waypoint time (so the nearest-time index is 0), `trajectory_control`
interpolates on the segment whose start is the LAST waypoint (Python index
`-1`) and whose end is the first waypoint, and returns the last waypoint's
yaw; it does not clamp to the first segment or the first waypoint. -/
theorem trajectory_before_first_uses_last {α : Type} [LinearOrderedField α]
    (c : NonlinearController α) (pos : List (Vec3 α)) (yaws times : List α) (t : α)
    (hlp : pos.length = times.length) (hly : yaws.length = times.length)
    (h2 : 2 ≤ times.length) (hchain : List.Chain' (· < ·) times)
    (ht : t < times.getD 0 0) :
    selectSegment pos yaws times t =
      (pos.getD (pos.length - 1) ⟨0, 0, 0⟩, pos.getD 0 ⟨0, 0, 0⟩,
        times.getD (times.length - 1) 0, times.getD 0 0,
        yaws.getD (yaws.length - 1) 0) ∧
    (trajectory_control c pos yaws times t).2 =
      Except.ok
        (Vec3.add (Vec3.sdiv (Vec3.smul
            (Vec3.sub (pos.getD 0 ⟨0, 0, 0⟩) (pos.getD (pos.length - 1) ⟨0, 0, 0⟩))
            (t - times.getD (times.length - 1) 0))
          (times.getD 0 0 - times.getD (times.length - 1) 0))
          (pos.getD (pos.length - 1) ⟨0, 0, 0⟩),
         Vec3.sdiv (Vec3.sub (pos.getD 0 ⟨0, 0, 0⟩) (pos.getD (pos.length - 1) ⟨0, 0, 0⟩))
          (times.getD 0 0 - times.getD (times.length - 1) 0),
         yaws.getD (yaws.length - 1) 0) := by
  have hne : times ≠ [] := by
    intro h
    rw [h] at h2
    simp at h2
  have hind := argminAbs_before_first times t hchain hne ht
  have hsel : selectSegment pos yaws times t =
      (pos.getD (pos.length - 1) ⟨0, 0, 0⟩, pos.getD 0 ⟨0, 0, 0⟩,
        times.getD (times.length - 1) 0, times.getD 0 0,
        yaws.getD (yaws.length - 1) 0) := by
    simp only [selectSegment, hind, Nat.cast_zero, zero_sub, pyGet_zero, pyGet_neg_one]
    rw [if_pos ht]
  refine ⟨hsel, ?_⟩
  simp only [trajectory_control, hsel]

theorem altitude_thrust_in_bounds_witness :
    1 / 10 ≤ (altitude_control (fun _ => (0 : ℚ)) (fun _ => 1) (initController id)
        1 2 3 4 ⟨0, 0, 0⟩ 5).2 ∧
    (altitude_control (fun _ => (0 : ℚ)) (fun _ => 1) (initController id)
        1 2 3 4 ⟨0, 0, 0⟩ 5).2 ≤ MAX_THRUST / DRONE_MASS_KG ∧
    (MAX_THRUST / DRONE_MASS_KG ≤ altitude_thrust_raw (fun _ => (0 : ℚ)) (fun _ => 1)
        (initController id) 1 2 3 4 ⟨0, 0, 0⟩ 5 →
      (altitude_control (fun _ => (0 : ℚ)) (fun _ => 1) (initController id)
        1 2 3 4 ⟨0, 0, 0⟩ 5).2 = MAX_THRUST / DRONE_MASS_KG) ∧
    (altitude_thrust_raw (fun _ => (0 : ℚ)) (fun _ => 1) (initController id)
        1 2 3 4 ⟨0, 0, 0⟩ 5 ≤ 1 / 10 →
      (altitude_control (fun _ => (0 : ℚ)) (fun _ => 1) (initController id)
        1 2 3 4 ⟨0, 0, 0⟩ 5).2 = 1 / 10) :=
  altitude_thrust_in_bounds (fun _ => (0 : ℚ)) (fun _ => 1) (initController id)
    1 2 3 4 ⟨0, 0, 0⟩ 5

theorem altitude_integral_accumulates_witness :
    (altitude_control (fun _ => (0 : ℚ)) (fun _ => 1) (initController id)
        0 0 (-1) 0 ⟨0, 0, 0⟩ 0).1.z_error_sum =
      (initController (id : ℚ → ℚ)).z_error_sum + (0 - (-1)) ∧
    (0 < 0 - (-1 : ℚ) →
      (initController (id : ℚ → ℚ)).z_error_sum <
        (altitude_control (fun _ => (0 : ℚ)) (fun _ => 1) (initController id)
          0 0 (-1) 0 ⟨0, 0, 0⟩ 0).1.z_error_sum ∧
      (altitude_control (fun _ => (0 : ℚ)) (fun _ => 1) (initController id)
          0 0 (-1) 0 ⟨0, 0, 0⟩ 0).1.z_error_sum <
        (altitude_control (fun _ => (0 : ℚ)) (fun _ => 1)
            (altitude_control (fun _ => (0 : ℚ)) (fun _ => 1) (initController id)
              0 0 (-1) 0 ⟨0, 0, 0⟩ 0).1
            0 0 (-1) 0 ⟨0, 0, 0⟩ 0).1.z_error_sum) :=
  altitude_integral_accumulates (fun _ => (0 : ℚ)) (fun _ => 1) (initController id)
    0 0 (-1) 0 ⟨0, 0, 0⟩ 0

theorem trajectory_endpoint_pinning_witness :
    (trajectory_control (initController (id : ℚ → ℚ)) [⟨1, 2, 3⟩, ⟨4, 5, 6⟩] [7, 8]
        [0, 10] 25).2 =
      Except.ok (([⟨1, 2, 3⟩, ⟨4, 5, 6⟩] : List (Vec3 ℚ)).getD
          (([⟨1, 2, 3⟩, ⟨4, 5, 6⟩] : List (Vec3 ℚ)).length - 1) ⟨0, 0, 0⟩,
        (⟨0, 0, 0⟩ : Vec3 ℚ), ([7, 8] : List ℚ).getD (([7, 8] : List ℚ).length - 1) 0) :=
  trajectory_endpoint_pinning (initController (id : ℚ → ℚ)) [⟨1, 2, 3⟩, ⟨4, 5, 6⟩]
    [7, 8] [0, 10] 25 (by norm_num) (by norm_num) (by simp)
    (by norm_num [List.chain'_cons, List.chain'_singleton])
    (by norm_num [List.getD])

theorem trajectory_before_first_uses_last_witness :
    selectSegment ([⟨0, 0, 0⟩, ⟨1, 1, 1⟩] : List (Vec3 ℚ)) [3, 4] [10, 20] 5 =
      (([⟨0, 0, 0⟩, ⟨1, 1, 1⟩] : List (Vec3 ℚ)).getD
          (([⟨0, 0, 0⟩, ⟨1, 1, 1⟩] : List (Vec3 ℚ)).length - 1) ⟨0, 0, 0⟩,
        ([⟨0, 0, 0⟩, ⟨1, 1, 1⟩] : List (Vec3 ℚ)).getD 0 ⟨0, 0, 0⟩,
        ([10, 20] : List ℚ).getD (([10, 20] : List ℚ).length - 1) 0,
        ([10, 20] : List ℚ).getD 0 0,
        ([3, 4] : List ℚ).getD (([3, 4] : List ℚ).length - 1) 0) ∧
    (trajectory_control (initController (id : ℚ → ℚ)) [⟨0, 0, 0⟩, ⟨1, 1, 1⟩] [3, 4]
        [10, 20] 5).2 =
      Except.ok
        (Vec3.add (Vec3.sdiv (Vec3.smul
            (Vec3.sub (([⟨0, 0, 0⟩, ⟨1, 1, 1⟩] : List (Vec3 ℚ)).getD 0 ⟨0, 0, 0⟩)
              (([⟨0, 0, 0⟩, ⟨1, 1, 1⟩] : List (Vec3 ℚ)).getD
                (([⟨0, 0, 0⟩, ⟨1, 1, 1⟩] : List (Vec3 ℚ)).length - 1) ⟨0, 0, 0⟩))
            (5 - ([10, 20] : List ℚ).getD (([10, 20] : List ℚ).length - 1) 0))
          (([10, 20] : List ℚ).getD 0 0 -
            ([10, 20] : List ℚ).getD (([10, 20] : List ℚ).length - 1) 0))
          (([⟨0, 0, 0⟩, ⟨1, 1, 1⟩] : List (Vec3 ℚ)).getD
            (([⟨0, 0, 0⟩, ⟨1, 1, 1⟩] : List (Vec3 ℚ)).length - 1) ⟨0, 0, 0⟩),
         Vec3.sdiv (Vec3.sub (([⟨0, 0, 0⟩, ⟨1, 1, 1⟩] : List (Vec3 ℚ)).getD 0 ⟨0, 0, 0⟩)
            (([⟨0, 0, 0⟩, ⟨1, 1, 1⟩] : List (Vec3 ℚ)).getD
              (([⟨0, 0, 0⟩, ⟨1, 1, 1⟩] : List (Vec3 ℚ)).length - 1) ⟨0, 0, 0⟩))
          (([10, 20] : List ℚ).getD 0 0 -
            ([10, 20] : List ℚ).getD (([10, 20] : List ℚ).length - 1) 0),
         ([3, 4] : List ℚ).getD (([3, 4] : List ℚ).length - 1) 0) :=
  trajectory_before_first_uses_last (initController (id : ℚ → ℚ)) [⟨0, 0, 0⟩, ⟨1, 1, 1⟩]
    [3, 4] [10, 20] 5 (by norm_num) (by norm_num) (by norm_num)
    (by norm_num [List.chain'_cons, List.chain'_singleton])
    (by norm_num [List.getD])

theorem only_altitude_mutates_state_witness :
    (trajectory_control (initController (id : ℚ → ℚ)) [⟨1, 1, 1⟩] [2] [3] 4).1 =
      initController (id : ℚ → ℚ) ∧
    (lateral_position_control (initController (id : ℚ → ℚ)) (1, 1) (2, 2) (3, 3) (4, 4)
        (5, 5)).1 = initController (id : ℚ → ℚ) ∧
    (roll_pitch_controller (fun _ => (0 : ℚ)) (fun _ => 1) (initController id) (1, 2)
        ⟨0, 0, 0⟩ 3).1 = initController (id : ℚ → ℚ) ∧
    (body_rate_control (initController (id : ℚ → ℚ)) ⟨1, 2, 3⟩ ⟨4, 5, 6⟩).1 =
      initController (id : ℚ → ℚ) ∧
    (yaw_control (0 : ℚ) (initController id) 1 2).1 = initController (id : ℚ → ℚ) ∧
    (altitude_control (fun _ => (0 : ℚ)) (fun _ => 1) (initController id)
        6 7 8 9 ⟨0, 0, 0⟩ 10).1.z_k_p = (initController (id : ℚ → ℚ)).z_k_p ∧
    (altitude_control (fun _ => (0 : ℚ)) (fun _ => 1) (initController id)
        6 7 8 9 ⟨0, 0, 0⟩ 10).1.z_k_d = (initController (id : ℚ → ℚ)).z_k_d ∧
    (altitude_control (fun _ => (0 : ℚ)) (fun _ => 1) (initController id)
        6 7 8 9 ⟨0, 0, 0⟩ 10).1.z_k_i = (initController (id : ℚ → ℚ)).z_k_i ∧
    (altitude_control (fun _ => (0 : ℚ)) (fun _ => 1) (initController id)
        6 7 8 9 ⟨0, 0, 0⟩ 10).1.x_k_p = (initController (id : ℚ → ℚ)).x_k_p ∧
    (altitude_control (fun _ => (0 : ℚ)) (fun _ => 1) (initController id)
        6 7 8 9 ⟨0, 0, 0⟩ 10).1.x_k_d = (initController (id : ℚ → ℚ)).x_k_d ∧
    (altitude_control (fun _ => (0 : ℚ)) (fun _ => 1) (initController id)
        6 7 8 9 ⟨0, 0, 0⟩ 10).1.y_k_p = (initController (id : ℚ → ℚ)).y_k_p ∧
    (altitude_control (fun _ => (0 : ℚ)) (fun _ => 1) (initController id)
        6 7 8 9 ⟨0, 0, 0⟩ 10).1.y_k_d = (initController (id : ℚ → ℚ)).y_k_d ∧
    (altitude_control (fun _ => (0 : ℚ)) (fun _ => 1) (initController id)
        6 7 8 9 ⟨0, 0, 0⟩ 10).1.k_p_roll = (initController (id : ℚ → ℚ)).k_p_roll ∧
    (altitude_control (fun _ => (0 : ℚ)) (fun _ => 1) (initController id)
        6 7 8 9 ⟨0, 0, 0⟩ 10).1.k_p_pitch = (initController (id : ℚ → ℚ)).k_p_pitch ∧
    (altitude_control (fun _ => (0 : ℚ)) (fun _ => 1) (initController id)
        6 7 8 9 ⟨0, 0, 0⟩ 10).1.k_p_yaw = (initController (id : ℚ → ℚ)).k_p_yaw ∧
    (altitude_control (fun _ => (0 : ℚ)) (fun _ => 1) (initController id)
        6 7 8 9 ⟨0, 0, 0⟩ 10).1.k_p_p = (initController (id : ℚ → ℚ)).k_p_p ∧
    (altitude_control (fun _ => (0 : ℚ)) (fun _ => 1) (initController id)
        6 7 8 9 ⟨0, 0, 0⟩ 10).1.k_p_q = (initController (id : ℚ → ℚ)).k_p_q ∧
    (altitude_control (fun _ => (0 : ℚ)) (fun _ => 1) (initController id)
        6 7 8 9 ⟨0, 0, 0⟩ 10).1.k_p_r = (initController (id : ℚ → ℚ)).k_p_r ∧
    (altitude_control (fun _ => (0 : ℚ)) (fun _ => 1) (initController id)
        6 7 8 9 ⟨0, 0, 0⟩ 10).1.z_error_sum =
      (initController (id : ℚ → ℚ)).z_error_sum + (6 - 8) :=
  only_altitude_mutates_state (fun _ => (0 : ℚ)) (fun _ => 1) 0 (initController id)
    [⟨1, 1, 1⟩] [2] [3] 4 (1, 1) (2, 2) (3, 3) (4, 4) (5, 5) (1, 2) ⟨0, 0, 0⟩ 3
    ⟨1, 2, 3⟩ ⟨4, 5, 6⟩ 1 2 6 7 8 9 10

end FCND
